import Mathlib

/-!
Verification development for the firebot-nodejs-api banner pipeline.

The definitions below are shallow embeddings of the TypeScript sources:
  * `src/modules/tools/domain/services/banner.service.ts` (BannerService)
  * the FirebotIntegration HTTP client (token cache, authenticated GET)
  * `src/modules/tools/config/constants.ts` (locale table)
JavaScript numbers are modelled by an explicit tagged type that keeps the
`NaN` and `Infinity` cases of division; asynchronous fetches are modelled
by passing each upstream outcome explicitly as an `Except` value; the file
system is modelled as a function from paths to optional file contents.
-/

namespace Firebot

/-- Result of a JavaScript floating-point computation on non-negative
operands: either a finite rational or one of the special values produced
by division by zero. -/
inductive JsNum where
  | nan
  | posInf
  | negInf
  | num (x : ℚ)
deriving DecidableEq, Repr

/-- JavaScript division `a / b` of two non-negative integers: `0/0` is
`NaN`, `p/0` with `p > 0` is `Infinity`, otherwise the exact quotient. -/
def jsDivNat (a b : ℕ) : JsNum :=
  if b = 0 then (if a = 0 then .nan else .posInf) else .num ((a : ℚ) / (b : ℚ))

/-- Multiplication of a JavaScript number by a positive rational constant. -/
def jsMulPos (j : JsNum) (k : ℚ) : JsNum :=
  match j with
  | .nan => .nan
  | .posInf => .posInf
  | .negInf => .negInf
  | .num x => .num (x * k)

/-- Model of `Math.round` on a JavaScript number: floor of `x + 1/2` on finite
values, identity on `NaN` and the infinities. -/
def jsRound (j : JsNum) : JsNum :=
  match j with
  | .nan => .nan
  | .posInf => .posInf
  | .negInf => .negInf
  | .num x => .num (⌊x + 1/2⌋ : ℤ)

/-- The online-percentage expression of `generateBaseStructureSVG` and
`createFinalImageWithText` in banner.service.ts:
`Math.round((guildInfo.guild.players_online / guildInfo.guild.members_total) * 100)`.
There is no guard on `members_total`. -/
def onlinePercentage (players_online members_total : ℕ) : JsNum :=
  jsRound (jsMulPos (jsDivNat players_online members_total) 100)

/-! ## Data model (banner.interface.ts) -/

/-- Inner world record of the `WorldInfo` payload. -/
structure World where
  name : String
  players_online : ℕ
  record_players : ℕ
  location : String
  pvp_type : String
deriving DecidableEq, Repr

/-- Payload of the world-info fetch. -/
structure WorldInfo where
  world : World
deriving DecidableEq, Repr

/-- Inner guild record of the `GuildInfo` payload. -/
structure Guild where
  name : String
  players_online : ℕ
  members_total : ℕ
  founded : String
  description : String
deriving DecidableEq, Repr

/-- Payload of the guild-info fetch; the `guild` field may be absent in a
degenerate upstream response, which fetchData treats as guild-not-found. -/
structure GuildInfo where
  guild : Option Guild
deriving DecidableEq, Repr

/-- Inner boosted-boss record. -/
structure Boosted where
  name : String
  image_url : Option String
deriving DecidableEq, Repr

/-- Payload of the boosted-bosses fetch, flattened over the
`boostable_bosses.boosted` nesting. -/
structure BoostedBoss where
  boosted : Boosted
deriving DecidableEq, Repr

/-- Payload of the Rashid NPC-location fetch. -/
structure RashidLocation where
  city : String
  place : String
deriving DecidableEq, Repr

/-- A loosely typed JavaScript field value as scanned by `checkForYasir`:
either a string or an array of strings. -/
inductive JVal where
  | s (v : String)
  | arr (elems : List String)
deriving DecidableEq, Repr

/-- One entry of a world-changes list: either a bare string or a
structured change record with optional `type`, `name`, `description` and
`link` fields. -/
inductive ChangeItem where
  | str (v : String)
  | obj (type name description link : Option JVal)
deriving DecidableEq, Repr

/-- Payload of the world-changes fetch; `none` models an absent or
non-array property. -/
structure WorldChangesPayload where
  changes : Option (List ChangeItem)
  world_changes : Option (List ChangeItem)
deriving DecidableEq, Repr

/-- Aggregated data record assembled by `fetchData`. -/
structure BannerData where
  worldInfo : WorldInfo
  guildInfo : GuildInfo
  boosted : BoostedBoss
  rashidLocation : RashidLocation
  worldChanges : WorldChangesPayload
  yasirIsActive : Bool
  updateDate : String
deriving DecidableEq, Repr

/-! ## Banner options and defaults (generateBanner, createFinalImageWithText) -/

/-- Options object accepted by `generateBanner`; every field is optional. -/
structure BannerOptions where
  lang : Option String := none
  theme : Option String := none
  showBoss : Option Bool := none
  showLogo : Option Bool := none
  width : Option ℤ := none
  height : Option ℤ := none
deriving DecidableEq, Repr

/-- Fully defaulted options. -/
structure ResolvedOptions where
  lang : String
  theme : String
  showBoss : Bool
  showLogo : Bool
  width : ℤ
  height : ℤ
deriving DecidableEq, Repr

/-- Option defaulting as performed by the destructuring patterns of
`generateBanner` (lang, theme, showBoss, width, height) and
`createFinalImageWithText` (showLogo). -/
def resolveOptions (o : BannerOptions) : ResolvedOptions :=
  { lang := o.lang.getD "pt"
    theme := o.theme.getD "firebot"
    showBoss := o.showBoss.getD true
    showLogo := o.showLogo.getD true
    width := o.width.getD 1200
    height := o.height.getD 300 }

/-- The options object with every field omitted. -/
def emptyOptions : BannerOptions := {}

/-! ## Locale table (constants.ts) -/

/-- The set of text labels of one locale. -/
structure Labels where
  membersOnline : String
  boostedBoss : String
  playersOnline : String
  record : String
  founded : String
  avgLevel : String
  topVocation : String
  guildStats : String
deriving DecidableEq, Repr

/-- Base64 alphabet. -/
def b64Alphabet : List Char :=
  "ABCDEFGHIJKLMNOPQRSTUVWXYZabcdefghijklmnopqrstuvwxyz0123456789+/".data

/-- Character of the base64 alphabet at a 6-bit index. -/
def b64Char (n : ℕ) : Char := b64Alphabet.getD n 'A'

/-- Base64 encoding of a byte list, three bytes at a time, with `=`
padding. -/
def base64Chunks : List ℕ → List Char
  | [] => []
  | [a] => [b64Char (a / 4), b64Char (a % 4 * 16), '=', '=']
  | [a, b] => [b64Char (a / 4), b64Char (a % 4 * 16 + b / 16), b64Char (b % 16 * 4), '=']
  | a :: b :: c :: rest =>
    b64Char (a / 4) :: b64Char (a % 4 * 16 + b / 16) ::
      b64Char (b % 16 * 4 + c / 64) :: b64Char (c % 64) :: base64Chunks rest

/-- UTF-8 encoding of one character as a list of byte values. -/
def utf8Nat (c : Char) : List ℕ :=
  let n := c.toNat
  if n < 128 then [n]
  else if n < 2048 then [192 + n / 64, 128 + n % 64]
  else if n < 65536 then [224 + n / 4096, 128 + n / 64 % 64, 128 + n % 64]
  else [240 + n / 262144, 128 + n / 4096 % 64, 128 + n / 64 % 64, 128 + n % 64]

/-- UTF-8 encoding of a string as a list of byte values. -/
def utf8Bytes (s : String) : List ℕ := s.data.flatMap utf8Nat

/-- Model of `Buffer.from(s).toString("base64")` on a UTF-8 string. -/
def base64Encode (s : String) : String :=
  ⟨base64Chunks (utf8Bytes s)⟩

/-- The `pt` entry of the locale table; three labels are stored base64
encoded in the source and decoded by `decodeText` before rendering. -/
def ptLabels : Labels :=
  { membersOnline := "Membros Online"
    boostedBoss := "Boss do Dia"
    playersOnline := "Jogadores Online"
    record := "Recorde"
    founded := "Fundado em"
    avgLevel := base64Encode "Nível Médio"
    topVocation := base64Encode "Vocação Principal"
    guildStats := base64Encode "Estatísticas da Guild" }

/-- The `en` entry of the locale table. -/
def enLabels : Labels :=
  { membersOnline := "Members Online"
    boostedBoss := "Boosted Boss"
    playersOnline := "Players Online"
    record := "Record"
    founded := "Founded"
    avgLevel := "Average Level"
    topVocation := "Top Vocation"
    guildStats := "Guild Statistics" }

/-- Lookup `translations[lang]` in the locale table of constants.ts. -/
def translationsLookup (lang : String) : Option Labels :=
  if lang = "pt" then some ptLabels
  else if lang = "en" then some enLabels
  else none

/-- The expression `translations[lang] || translations.pt` of
`generateBanner`. -/
def resolveTranslations (lang : String) : Labels :=
  (translationsLookup lang).getD ptLabels

/-! ## XML escaping (escapeXml) -/

/-- The single-quote character, kept behind a name. -/
def squote : Char := Char.ofNat 39

/-- Replacement applied by `escapeXml` to a single character. -/
def escapeChar (c : Char) : List Char :=
  if c = '<' then "&lt;".data
  else if c = '>' then "&gt;".data
  else if c = '&' then "&amp;".data
  else if c = squote then "&apos;".data
  else if c = '"' then "&quot;".data
  else [c]

/-- Character-by-character application of the `escapeXml` replacement. -/
def escapeList : List Char → List Char
  | [] => []
  | c :: cs => escapeChar c ++ escapeList cs

/-- Model of `escapeXml` of banner.service.ts on a possibly null or undefined
argument: a falsy argument (null, undefined or the empty string) yields
the empty string, otherwise every XML special character is replaced by
its entity. -/
def escapeXml (input : Option String) : String :=
  match input with
  | none => ""
  | some s => if s = "" then "" else ⟨escapeList s.data⟩

/-- The five XML entities emitted by `escapeXml`. -/
def xmlEntities : List (List Char) :=
  ["&lt;".data, "&gt;".data, "&amp;".data, "&apos;".data, "&quot;".data]

/-- True when the character list contains none of the four raw characters
that `escapeXml` is required to eliminate. -/
def noRawSpecials (l : List Char) : Bool :=
  l.all fun c => !(c == '<' || c == '>' || c == '"' || c == squote)

/-- Prefix test on lists, recursing on the pattern first. -/
def listPrefixOf {α : Type} [BEq α] (p l : List α) : Bool :=
  match p with
  | [] => true
  | a :: as =>
    match l with
    | [] => false
    | b :: bs => a == b && listPrefixOf as bs

/-- True when every ampersand in the character list is the start of one of
the five XML entities. -/
def ampEntityAt : List Char → Bool
  | [] => true
  | c :: cs =>
    if c = '&' then (xmlEntities.any fun e => listPrefixOf e (c :: cs)) && ampEntityAt cs
    else ampEntityAt cs

/-! ## Yasir detection (checkForYasir) -/

/-- The marker string scanned for by `checkForYasir`. -/
def yasirMarker : String := "Oriental Trader"

/-- Contiguous-sublist test on lists. -/
def listInfixOf {α : Type} [BEq α] : List α → List α → Bool
  | pat, [] => pat.isEmpty
  | pat, x :: xs => listPrefixOf pat (x :: xs) || listInfixOf pat xs

/-- JavaScript `String.prototype.includes` as a substring test. -/
def containsSub (s pat : String) : Bool := listInfixOf pat.data s.data

/-- JavaScript truthiness of a loosely typed field value: the empty string
is falsy, every array is truthy. -/
def jvTruthy : JVal → Bool
  | .s v => v != ""
  | .arr _ => true

/-- JavaScript `value.includes("Oriental Trader")`: substring test on a
string, element membership on an array. -/
def jvIncludesMarker : JVal → Bool
  | .s v => containsSub v yasirMarker
  | .arr l => l.contains yasirMarker

/-- The pattern `field && field.includes("Oriental Trader")` on an
optional field. -/
def fieldHit : Option JVal → Bool
  | none => false
  | some v => jvTruthy v && jvIncludesMarker v

/-- First `some` of `checkForYasir`: the changes array scanned as an array
of strings. -/
def changesStringHit (items : List ChangeItem) : Bool :=
  items.any fun c =>
    match c with
    | .str v => containsSub v yasirMarker
    | .obj _ _ _ _ => false

/-- Second `some` of `checkForYasir`: the changes array scanned as an
array of records on their `type`, `name` and `description` fields. -/
def changesObjHit (items : List ChangeItem) : Bool :=
  items.any fun c =>
    match c with
    | .str _ => false
    | .obj t n d _ => fieldHit t || fieldHit n || fieldHit d

/-- Third `some` of `checkForYasir`: the `world_changes` array scanned as
an array of records on their `name`, `link` and `description` fields. -/
def worldChangesObjHit (items : List ChangeItem) : Bool :=
  items.any fun c =>
    match c with
    | .str _ => false
    | .obj _ n d l => fieldHit n || fieldHit l || fieldHit d

/-- The `world_changes` arm of `checkForYasir`. -/
def checkWorldChangesArm (w : WorldChangesPayload) : Bool :=
  match w.world_changes with
  | some items => worldChangesObjHit items
  | none => false

/-- Model of `checkForYasir` of banner.service.ts: scans `changes` as strings, then
`changes` as records, then `world_changes` as records; false when nothing
matches. -/
def checkForYasir (w : WorldChangesPayload) : Bool :=
  match w.changes with
  | some items =>
    if changesStringHit items then true
    else if changesObjHit items then true
    else checkWorldChangesArm w
  | none => checkWorldChangesArm w

/-- The specification-side reading of the scan: the marker occurs in the
payload either in a flat list of strings or in a structured change record
on one of its scanned fields, as a plain disjunction over both list
properties with an absent property read as the empty list. -/
def specMarkerOccurs (w : WorldChangesPayload) : Bool :=
  changesStringHit (w.changes.getD []) || changesObjHit (w.changes.getD [])
    || worldChangesObjHit (w.world_changes.getD [])

/-! ## Data aggregation (fetchData) -/

/-- Placeholder returned by `fetchWorldInfoSafe` on failure: the world
name echoed back with zeroed stats. -/
def placeholderWorldInfo (world : String) : WorldInfo :=
  ⟨⟨world, 0, 0, "Unknown", "Unknown"⟩⟩

/-- Placeholder returned by `fetchBoostedBossesSafe` on failure. -/
def placeholderBoosted : BoostedBoss := ⟨⟨"Unknown", none⟩⟩

/-- Placeholder returned by `fetchRashidLocationSafe` on failure. -/
def placeholderRashid : RashidLocation := ⟨"Unknown", "Unknown"⟩

/-- Placeholder returned by `fetchWorldChangesSafe` on failure: an empty
changes list. -/
def placeholderChanges : WorldChangesPayload := ⟨some [], none⟩

/-- The guild-not-found message raised by `fetchGuildInfoSafe` and by the
missing-payload check of `fetchData`. -/
def guildNotFoundMsg (guildName : String) : String :=
  "Guild \"" ++ guildName ++ "\" not found. Please check the guild name and try again."

/-- Wrapper around the world-info fetch: failures degrade to the
placeholder. -/
def fetchWorldInfoSafe (world : String) (r : Except String WorldInfo) : WorldInfo :=
  match r with
  | .ok w => w
  | .error _ => placeholderWorldInfo world

/-- Wrapper around the guild-info fetch: failures are rethrown as the
guild-not-found error. -/
def fetchGuildInfoSafe (guildName : String) (r : Except String GuildInfo) :
    Except String GuildInfo :=
  match r with
  | .ok g => .ok g
  | .error _ => .error (guildNotFoundMsg guildName)

/-- Wrapper around the boosted-bosses fetch: failures degrade to the
placeholder. -/
def fetchBoostedBossesSafe (r : Except String BoostedBoss) : BoostedBoss :=
  match r with
  | .ok b => b
  | .error _ => placeholderBoosted

/-- Wrapper around the Rashid-location fetch: failures degrade to the
placeholder. -/
def fetchRashidLocationSafe (r : Except String RashidLocation) : RashidLocation :=
  match r with
  | .ok l => l
  | .error _ => placeholderRashid

/-- Wrapper around the world-changes fetch: failures degrade to the empty
changes list. -/
def fetchWorldChangesSafe (r : Except String WorldChangesPayload) : WorldChangesPayload :=
  match r with
  | .ok c => c
  | .error _ => placeholderChanges

/-- The outcomes of the five upstream fetches issued by `fetchData`. -/
structure FetchResults where
  world : Except String WorldInfo
  guild : Except String GuildInfo
  boosted : Except String BoostedBoss
  rashid : Except String RashidLocation
  changes : Except String WorldChangesPayload

/-- Model of `fetchData` of banner.service.ts: validates the parameters, runs the
five wrapped fetches, requires a guild payload, derives the Yasir flag and
assembles the aggregated record; every raised error is wrapped as a
data-fetching failure. -/
def fetchData (world guildName : String) (r : FetchResults) (updateDate : String) :
    Except String BannerData :=
  if world = "" then .error "Data fetching failed: World parameter is required"
  else if guildName = "" then .error "Data fetching failed: Guild name parameter is required"
  else
    match fetchGuildInfoSafe guildName r.guild with
    | .error e => .error ("Data fetching failed: " ++ e)
    | .ok gi =>
      match gi.guild with
      | none => .error ("Data fetching failed: " ++ guildNotFoundMsg guildName)
      | some _ =>
        .ok { worldInfo := fetchWorldInfoSafe world r.world
              guildInfo := gi
              boosted := fetchBoostedBossesSafe r.boosted
              rashidLocation := fetchRashidLocationSafe r.rashid
              worldChanges := fetchWorldChangesSafe r.changes
              yasirIsActive := checkForYasir (fetchWorldChangesSafe r.changes)
              updateDate := updateDate }

/-- Model of `generateBanner` of banner.service.ts, with the raster composition
abstracted as a pure `render` function over the resolved inputs: asset
loading and data fetching happen in order and any error is wrapped as a
banner-generation failure. -/
def generateBanner (world guildName : String) (opts : BannerOptions)
    (assets : Except String (String × String)) (r : FetchResults) (updateDate : String)
    (render : ResolvedOptions → Labels → (String × String) → BannerData → List ℕ) :
    Except String (List ℕ) :=
  let ro := resolveOptions opts
  let t := resolveTranslations ro.lang
  match assets with
  | .error e => .error ("Banner generation failed: " ++ e)
  | .ok a =>
    match fetchData world guildName r updateDate with
    | .error e => .error ("Banner generation failed: " ++ e)
    | .ok data => .ok (render ro t a data)

/-- True exactly on successful `Except` values. -/
def isOkB {ε α : Type} : Except ε α → Bool
  | .ok _ => true
  | .error _ => false

/-! ## Asset resolution (loadAssets) -/

/-- The ordered candidate base locations of `loadAssets`. -/
def assetBasePaths (cwd : String) : List String :=
  [cwd ++ "/src/assets/images", cwd ++ "/dist/src/assets/images",
   "/app/src/assets/images", "/app/dist/src/assets/images"]

/-- A themed read with a `.catch` fallback to the generic default file. -/
def readOrDefault (read : String → Option String) (themed fallback : String) : Option String :=
  match read themed with
  | some v => some v
  | none => read fallback

/-- One iteration body of the `loadAssets` loop: both assets of one base
location, each with its default fallback; `none` models the rejection of
the `Promise.all` pair. -/
def tryBasePath (read : String → Option String) (theme base : String) :
    Option (String × String) :=
  match readOrDefault read (base ++ "/logo-" ++ theme ++ ".png") (base ++ "/logo.png"),
        readOrDefault read (base ++ "/background-" ++ theme ++ ".png")
          (base ++ "/image.png") with
  | some l, some b => some (l, b)
  | _, _ => none

/-- The `for` loop of `loadAssets` over the candidate base locations,
carrying the two mutable variables: a successful pair is assigned and the
loop breaks when both values are truthy; a rejected pair leaves the
variables as they were. -/
def loadAssetsLoop (read : String → Option String) (theme : String) :
    List String → Option String × Option String → Option String × Option String
  | [], acc => acc
  | base :: rest, acc =>
    match tryBasePath read theme base with
    | none => loadAssetsLoop read theme rest acc
    | some (l, b) =>
      if l != "" && b != "" then (some l, some b)
      else loadAssetsLoop read theme rest (some l, some b)

/-- Model of `loadAssets` of banner.service.ts over an explicit file system and
path list: the loop result must leave both variables truthy, otherwise
the wrapped required-assets error is raised. -/
def loadAssets (read : String → Option String) (paths : List String) (theme : String) :
    Except String (String × String) :=
  match loadAssetsLoop read theme paths (none, none) with
  | (some l, some b) =>
    if l != "" && b != "" then .ok (l, b)
    else .error "Asset loading failed: Failed to load required assets"
  | _ => .error "Asset loading failed: Failed to load required assets"

/-! ## Authenticated client (FirebotIntegration) -/

/-- The process-wide token cache of `FirebotIntegration`. -/
structure AuthState where
  token : Option String
  tokenExpiry : Option ℤ
deriving DecidableEq, Repr

/-- The cache check `this.token && this.tokenExpiry && this.tokenExpiry >
new Date()`; an empty token string is falsy. -/
def cachedValid (now : ℤ) (st : AuthState) : Bool :=
  match st.token, st.tokenExpiry with
  | some tok, some e => tok != "" && decide (now < e)
  | _, _ => false

/-- Outcome of one login exchange against the provider. -/
inductive LoginResult where
  | ok (access_token : String) (expires_in : ℤ)
  | err (msg : String)
deriving DecidableEq, Repr

/-- Presence check of the configured credentials, with empty strings
falsy. -/
def credsPresent (email password : Option String) : Bool :=
  (match email with
   | some e => e != ""
   | none => false) &&
  (match password with
   | some p => p != ""
   | none => false)

/-- Result of one `authenticate` call: the returned or raised value, the
token cache afterwards, and whether a login exchange was performed. -/
structure AuthResult where
  out : Except String String
  state : AuthState
  exchanged : Bool

/-- The login path of `authenticate`: missing credentials fail before the
exchange; a failed exchange or an empty access token fail after it; a
successful exchange stores the token with the expiry set 300 seconds
before the provider-reported one. -/
def authLogin (now : ℤ) (email password : Option String) (st : AuthState)
    (login : LoginResult) : AuthResult :=
  if credsPresent email password = false then
    ⟨.error "Failed to authenticate: Firebot API credentials not configured", st, false⟩
  else
    match login with
    | .err m => ⟨.error ("Failed to authenticate: " ++ m), st, true⟩
    | .ok tok exp =>
      if tok = "" then
        ⟨.error "Failed to authenticate: Failed to obtain auth token", st, true⟩
      else
        ⟨.ok tok, ⟨some tok, some (now + (exp - 300) * 1000)⟩, true⟩

/-- Model of `authenticate` of FirebotIntegration: a valid cached token is returned
without a login exchange, otherwise the login path runs. -/
def authenticate (now : ℤ) (email password : Option String) (st : AuthState)
    (login : LoginResult) : AuthResult :=
  if cachedValid now st then ⟨.ok (st.token.getD ""), st, false⟩
  else authLogin now email password st login

/-- Outcome of one HTTP GET: success, an HTTP error with a status code, or
a transport error without one. -/
inductive GetResult (T : Type) where
  | ok (val : T)
  | httpErr (status : ℕ) (msg : String)
  | netErr (msg : String)

/-- Result of one `authenticatedRequest` call: the returned or raised
value, the token cache afterwards, the number of login exchanges and the
number of GET requests issued. -/
structure ReqResult (T : Type) where
  out : Except String T
  state : AuthState
  logins : ℕ
  gets : ℕ

/-- Model of `authenticatedRequest` of FirebotIntegration: authenticate, issue the
GET; on a 401 response clear the cached token, authenticate again and
retry the GET once, wrapping any failure of the retry path; every other
error is rethrown unchanged. -/
def authenticatedRequest {T : Type} (now : ℤ) (email password : Option String)
    (st : AuthState) (login1 login2 : LoginResult) (get1 get2 : GetResult T) :
    ReqResult T :=
  let a1 := authenticate now email password st login1
  let n1 : ℕ := if a1.exchanged then 1 else 0
  match a1.out with
  | .error e => ⟨.error e, a1.state, n1, 0⟩
  | .ok _ =>
    match get1 with
    | .ok v => ⟨.ok v, a1.state, n1, 1⟩
    | .netErr msg => ⟨.error msg, a1.state, n1, 1⟩
    | .httpErr status msg =>
      if status = 401 then
        let a2 := authenticate now email password ⟨none, none⟩ login2
        let n2 : ℕ := n1 + (if a2.exchanged then 1 else 0)
        match a2.out with
        | .error e => ⟨.error ("Request failed after retry: " ++ e), a2.state, n2, 1⟩
        | .ok _ =>
          match get2 with
          | .ok v => ⟨.ok v, a2.state, n2, 2⟩
          | .httpErr _ m2 => ⟨.error ("Request failed after retry: " ++ m2), a2.state, n2, 2⟩
          | .netErr m2 => ⟨.error ("Request failed after retry: " ++ m2), a2.state, n2, 2⟩
      else ⟨.error msg, a1.state, n1, 1⟩

/-! ## Concurrent token refresh (interleaving of two authenticate calls) -/

/-- Program counter of one in-flight `authenticate` call: before the cache
check, suspended on the login exchange, or finished with a record of
whether it exchanged. -/
inductive TaskPc where
  | start
  | waitLogin
  | done (exchanged : Bool)
deriving DecidableEq, Repr

/-- One scheduler step of an in-flight `authenticate` call against the
shared token cache: the cache check and the login-request send happen in
one step, the state update happens when the response arrives, after the
suspension point. Returns the shared state, the new program counter and
the number of login exchanges issued by the step. -/
def taskStep (now : ℤ) (email password : Option String) (login : LoginResult)
    (st : AuthState) (pc : TaskPc) : AuthState × TaskPc × ℕ :=
  match pc with
  | .start =>
    if cachedValid now st then (st, .done false, 0)
    else if credsPresent email password then (st, .waitLogin, 1)
    else (st, .done false, 0)
  | .waitLogin =>
    match login with
    | .ok tok exp =>
      if tok = "" then (st, .done true, 0)
      else (⟨some tok, some (now + (exp - 300) * 1000)⟩, .done true, 0)
    | .err _ => (st, .done true, 0)
  | .done b => (st, .done b, 0)

/-- Joint state of two concurrent `authenticate` calls sharing the token
cache, with a running count of login exchanges. -/
structure TwoTasks where
  shared : AuthState
  pcA : TaskPc
  pcB : TaskPc
  loginCalls : ℕ
deriving DecidableEq, Repr

/-- Run a schedule over two concurrent `authenticate` calls; `false`
steps task A, `true` steps task B. -/
def runSchedule (now : ℤ) (email password : Option String)
    (loginA loginB : LoginResult) : List Bool → TwoTasks → TwoTasks
  | [], s => s
  | b :: rest, s =>
    if b then
      let step := taskStep now email password loginB s.shared s.pcB
      runSchedule now email password loginA loginB rest
        ⟨step.1, s.pcA, step.2.1, s.loginCalls + step.2.2⟩
    else
      let step := taskStep now email password loginA s.shared s.pcA
      runSchedule now email password loginA loginB rest
        ⟨step.1, step.2.1, s.pcB, s.loginCalls + step.2.2⟩

/-! ## Concrete sample inputs used by witnesses and counterexamples -/

/-- A sample guild payload. -/
def sampleGuild : Guild := ⟨"Redd Alliance", 10, 40, "2005-01-01", ""⟩

/-- Fetch outcomes where every optional source fails and the guild fetch
succeeds. -/
def failOptionalResults : FetchResults :=
  ⟨.error "timeout", .ok ⟨some sampleGuild⟩, .error "boom", .error "down", .error "gone"⟩

/-- Fetch outcomes where the guild fetch fails. -/
def guildFailResults : FetchResults :=
  ⟨.ok (placeholderWorldInfo "Antica"), .error "status 404", .ok placeholderBoosted,
   .ok placeholderRashid, .ok placeholderChanges⟩

/-- A render function that ignores its inputs. -/
def nullRender : ResolvedOptions → Labels → (String × String) → BannerData → List ℕ :=
  fun _ _ _ _ => []

/-- A file system holding only the default logo in the third candidate
location and the default background in the fourth. -/
def splitRead : String → Option String := fun p =>
  if p = "/app/src/assets/images/logo.png" then some "LOGO"
  else if p = "/app/dist/src/assets/images/image.png" then some "BG"
  else none

/-- A file system holding both default assets in a single location. -/
def goodRead : String → Option String := fun p =>
  if p = "A/logo.png" then some "L"
  else if p = "A/image.png" then some "B"
  else none

/-- The interleaving where both tasks pass the cache check before either
stores a token: check A, check B, respond A, respond B. -/
def raceSchedule : List Bool := [false, true, false, true]

/-- Two fresh `authenticate` calls against an empty token cache. -/
def raceInit : TwoTasks := ⟨⟨none, none⟩, .start, .start, 0⟩

/-! ## Theorems -/

/-- C1: the online percentage has no guard on a zero member count: at
`players_online = 0, members_total = 0` the layout value is `NaN`, and at
`players_online = 3, members_total = 0` it is `Infinity`, contradicting
the claim that a zero member count is defined as 0 and never NaN or
Infinity. -/
theorem onlinePercentage_zero_members :
    onlinePercentage 0 0 = JsNum.nan ∧ onlinePercentage 3 0 = JsNum.posInf ∧
      (decide (onlinePercentage 0 0 = JsNum.num 0)) = false :=
  ⟨rfl, rfl, by decide⟩

/-- C6 counterexample: with every option omitted the theme defaults to
"firebot", not "default" as claimed. -/
theorem resolveOptions_theme_counterexample :
    (resolveOptions emptyOptions).theme = "firebot" ∧
      ((resolveOptions emptyOptions).theme == "default") = false :=
  ⟨rfl, rfl⟩

/-- C6 amended: an omitted option takes the defaults lang="pt",
theme="firebot", showBoss=true, showLogo=true, width=1200, height=300. -/
theorem resolveOptions_defaults (o : BannerOptions) :
    (o.lang = none → (resolveOptions o).lang = "pt") ∧
    (o.theme = none → (resolveOptions o).theme = "firebot") ∧
    (o.showBoss = none → (resolveOptions o).showBoss = true) ∧
    (o.showLogo = none → (resolveOptions o).showLogo = true) ∧
    (o.width = none → (resolveOptions o).width = 1200) ∧
    (o.height = none → (resolveOptions o).height = 300) := by
  refine ⟨?_, ?_, ?_, ?_, ?_, ?_⟩ <;> intro h <;> simp [resolveOptions, h]

/-- C6 witness: the defaults evaluated on the empty options object. -/
theorem resolveOptions_defaults_witness :
    (resolveOptions emptyOptions).lang = "pt" ∧
    (resolveOptions emptyOptions).theme = "firebot" ∧
    (resolveOptions emptyOptions).showBoss = true ∧
    (resolveOptions emptyOptions).showLogo = true ∧
    (resolveOptions emptyOptions).width = 1200 ∧
    (resolveOptions emptyOptions).height = 300 := by
  have h := resolveOptions_defaults emptyOptions
  exact ⟨h.1 rfl, h.2.1 rfl, h.2.2.1 rfl, h.2.2.2.1 rfl, h.2.2.2.2.1 rfl, h.2.2.2.2.2 rfl⟩

/-- C9: in the interleaving where both concurrent `authenticate` calls
pass the cache check before either stores a token, two login exchanges
are performed, not one: the refresh is not single-flighted. -/
theorem concurrent_authenticate_double_login :
    (runSchedule 0 (some "user") (some "pw") (.ok "T" 3600) (.ok "T" 3600)
        raceSchedule raceInit).loginCalls = 2 ∧
    (runSchedule 0 (some "user") (some "pw") (.ok "T" 3600) (.ok "T" 3600)
        raceSchedule raceInit).pcA = TaskPc.done true ∧
    (runSchedule 0 (some "user") (some "pw") (.ok "T" 3600) (.ok "T" 3600)
        raceSchedule raceInit).pcB = TaskPc.done true :=
  ⟨rfl, rfl, rfl⟩

/-- C2: when the guild-info fetch fails, or succeeds with a payload that
has no guild, the aggregation short-circuits with the guild-not-found
failure and `generateBanner` returns an error instead of image bytes. -/
theorem generateBanner_guildNotFound
    (world guildName : String) (opts : BannerOptions) (a : String × String)
    (r : FetchResults) (ud : String)
    (render : ResolvedOptions → Labels → (String × String) → BannerData → List ℕ)
    (hw : world ≠ "") (hgn : guildName ≠ "")
    (hfail : (∃ e, r.guild = .error e) ∨ r.guild = .ok ⟨none⟩) :
    generateBanner world guildName opts (.ok a) r ud render =
      .error ("Banner generation failed: " ++
        ("Data fetching failed: " ++ guildNotFoundMsg guildName)) := by
  rcases hfail with ⟨e, he⟩ | he <;>
    simp [generateBanner, fetchData, fetchGuildInfoSafe, he, hw, hgn]

/-- C2 witness: a concrete failed guild fetch produces the guild-not-found
error. -/
theorem generateBanner_guildNotFound_witness :
    generateBanner "Antica" "Redd Alliance" emptyOptions (.ok ("L", "B")) guildFailResults
        "01/01/2025" nullRender =
      .error ("Banner generation failed: " ++
        ("Data fetching failed: " ++ guildNotFoundMsg "Redd Alliance")) :=
  generateBanner_guildNotFound "Antica" "Redd Alliance" emptyOptions ("L", "B")
    guildFailResults "01/01/2025" nullRender (by decide) (by decide)
    (Or.inl ⟨"status 404", rfl⟩)

/-- C3: when the guild fetch succeeds, the aggregation succeeds whatever
the optional fetches do, the guild payload is kept, and a failed world,
boss, NPC or world-events fetch is replaced by its named placeholder. -/
theorem fetchData_degraded
    (world guildName ud : String) (r : FetchResults) (g : Guild)
    (ew eb er ec : String)
    (hw : world ≠ "") (hgn : guildName ≠ "") (hguild : r.guild = .ok ⟨some g⟩) :
    isOkB (fetchData world guildName r ud) = true
    ∧ (fetchData world guildName r ud).map BannerData.guildInfo = .ok ⟨some g⟩
    ∧ (r.world = .error ew →
        (fetchData world guildName r ud).map BannerData.worldInfo =
          .ok (placeholderWorldInfo world))
    ∧ (r.boosted = .error eb →
        (fetchData world guildName r ud).map BannerData.boosted = .ok placeholderBoosted)
    ∧ (r.rashid = .error er →
        (fetchData world guildName r ud).map BannerData.rashidLocation =
          .ok placeholderRashid)
    ∧ (r.changes = .error ec →
        (fetchData world guildName r ud).map BannerData.worldChanges =
          .ok placeholderChanges) := by
  have hfd : fetchData world guildName r ud =
      .ok { worldInfo := fetchWorldInfoSafe world r.world
            guildInfo := ⟨some g⟩
            boosted := fetchBoostedBossesSafe r.boosted
            rashidLocation := fetchRashidLocationSafe r.rashid
            worldChanges := fetchWorldChangesSafe r.changes
            yasirIsActive := checkForYasir (fetchWorldChangesSafe r.changes)
            updateDate := ud } := by
    simp [fetchData, fetchGuildInfoSafe, hguild, hw, hgn]
  refine ⟨by rw [hfd]; rfl, by rw [hfd]; rfl, ?_, ?_, ?_, ?_⟩ <;> intro h <;> rw [hfd] <;>
    simp [Except.map, fetchWorldInfoSafe, fetchBoostedBossesSafe, fetchRashidLocationSafe,
      fetchWorldChangesSafe, h]

/-- C3 witness: with every optional fetch failing and the guild fetch
succeeding, the aggregation completes with the named placeholders. -/
theorem fetchData_degraded_witness :
    isOkB (fetchData "Antica" "Redd Alliance" failOptionalResults "01/01/2025") = true
    ∧ (fetchData "Antica" "Redd Alliance" failOptionalResults "01/01/2025").map
        BannerData.worldInfo = .ok (placeholderWorldInfo "Antica")
    ∧ (fetchData "Antica" "Redd Alliance" failOptionalResults "01/01/2025").map
        BannerData.boosted = .ok placeholderBoosted
    ∧ (fetchData "Antica" "Redd Alliance" failOptionalResults "01/01/2025").map
        BannerData.rashidLocation = .ok placeholderRashid
    ∧ (fetchData "Antica" "Redd Alliance" failOptionalResults "01/01/2025").map
        BannerData.worldChanges = .ok placeholderChanges := by
  have h := fetchData_degraded "Antica" "Redd Alliance" "01/01/2025" failOptionalResults
    sampleGuild "timeout" "boom" "down" "gone" (by decide) (by decide) rfl
  exact ⟨h.1, h.2.2.1 rfl, h.2.2.2.1 rfl, h.2.2.2.2.1 rfl, h.2.2.2.2.2 rfl⟩

/-- Helper: a valid cached token is returned unchanged with no exchange. -/
theorem authenticate_cached (now : ℤ) (email password : Option String)
    (st : AuthState) (tk : String) (e : ℤ) (lg : LoginResult)
    (h1 : st.token = some tk) (h2 : tk ≠ "") (h3 : st.tokenExpiry = some e)
    (h4 : now < e) :
    authenticate now email password st lg = ⟨.ok tk, st, false⟩ := by
  obtain ⟨sto, ste⟩ := st
  simp only at h1 h3
  subst h1; subst h3
  simp [authenticate, cachedValid, h2, h4]

/-- Helper: a failed `authenticate` call leaves the token cache as it
found it. -/
theorem authenticate_error_state (now : ℤ) (email password : Option String)
    (st : AuthState) (lg : LoginResult) (m : String)
    (h : (authenticate now email password st lg).out = .error m) :
    (authenticate now email password st lg).state = st := by
  unfold authenticate at *
  by_cases hc : cachedValid now st
  · simp [hc] at h
  · simp only [hc] at *
    unfold authLogin at *
    by_cases hcr : credsPresent email password = false
    · simp [hcr]
    · cases lg with
      | err msg => simp [hcr]
      | ok tok exp =>
        by_cases ht : tok = ""
        · simp [hcr, ht]
        · simp [hcr, ht] at h

/-- C4: a cached token with the current time before the stored expiry is
returned without a login exchange; a fresh login stores the expiry exactly
300 seconds (5 minutes) before the provider-reported expiry
`now + expires_in * 1000`; hence a second call within the validity window
reuses the token of the single login exchange of the first call. -/
theorem authenticate_token_reuse
    (t0 t1 : ℤ) (email password : Option String) (tok : String) (exp : ℤ)
    (login2 lg : LoginResult) (st : AuthState) (tk : String) (e : ℤ)
    (hcreds : credsPresent email password = true) (htok : tok ≠ "")
    (ht1 : t1 < t0 + (exp - 300) * 1000)
    (hst : st.token = some tk) (htk : tk ≠ "") (hexp : st.tokenExpiry = some e)
    (hte : t1 < e) :
    authenticate t1 email password st lg = ⟨.ok tk, st, false⟩
    ∧ (authenticate t0 email password ⟨none, none⟩ (.ok tok exp)).out = .ok tok
    ∧ (authenticate t0 email password ⟨none, none⟩ (.ok tok exp)).exchanged = true
    ∧ (authenticate t0 email password ⟨none, none⟩ (.ok tok exp)).state.tokenExpiry =
        some (t0 + exp * 1000 - 300 * 1000)
    ∧ authenticate t1 email password
        (authenticate t0 email password ⟨none, none⟩ (.ok tok exp)).state login2 =
      ⟨.ok tok, (authenticate t0 email password ⟨none, none⟩ (.ok tok exp)).state, false⟩ := by
  have h1 : authenticate t0 email password ⟨none, none⟩ (.ok tok exp) =
      ⟨.ok tok, ⟨some tok, some (t0 + (exp - 300) * 1000)⟩, true⟩ := by
    simp [authenticate, cachedValid, authLogin, hcreds, htok]
  refine ⟨authenticate_cached t1 email password st tk e lg hst htk hexp hte, ?_, ?_, ?_, ?_⟩
  · rw [h1]
  · rw [h1]
  · rw [h1]
    have : t0 + (exp - 300) * 1000 = t0 + exp * 1000 - 300 * 1000 := by ring
    simp [this]
  · rw [h1]
    exact authenticate_cached t1 email password _ tok _ login2 rfl htok rfl ht1

/-- C4 witness: concrete cache reuse and a concrete pair of calls with a
single login exchange. -/
theorem authenticate_token_reuse_witness :
    authenticate 10 (some "user") (some "pw") ⟨some "C", some 99⟩ (.err "x") =
      ⟨.ok "C", ⟨some "C", some 99⟩, false⟩
    ∧ (authenticate 0 (some "user") (some "pw") ⟨none, none⟩ (.ok "T" 3600)).exchanged = true
    ∧ authenticate 10 (some "user") (some "pw")
        (authenticate 0 (some "user") (some "pw") ⟨none, none⟩ (.ok "T" 3600)).state
        (.err "y") =
      ⟨.ok "T",
        (authenticate 0 (some "user") (some "pw") ⟨none, none⟩ (.ok "T" 3600)).state,
        false⟩ := by
  have h := authenticate_token_reuse 0 10 (some "user") (some "pw") "T" 3600 (.err "y")
    (.err "x") ⟨some "C", some 99⟩ "C" 99 (by decide) (by decide) (by decide) rfl
    (by decide) rfl (by decide)
  exact ⟨h.1, h.2.2.1, h.2.2.2.2⟩

/-- C5: a 401 on the authenticated GET leads to exactly one
re-authentication from the cleared token cache and exactly one retried
GET; if the re-authentication fails, the wrapped failure is surfaced with
no retried GET and the cache stays cleared; if the retried GET fails, the
wrapped failure is surfaced with no further retry. -/
theorem authenticatedRequest_401_retry {T : Type}
    (now : ℤ) (email password : Option String) (st : AuthState)
    (login1 login2 : LoginResult) (msg : String) (get2 : GetResult T)
    (tok tok2 e2 : String)
    (h1 : (authenticate now email password st login1).out = .ok tok) :
    (authenticatedRequest now email password st login1 login2
        (.httpErr 401 msg) get2).logins =
      (if (authenticate now email password st login1).exchanged then 1 else 0) +
      (if (authenticate now email password ⟨none, none⟩ login2).exchanged then 1 else 0)
    ∧ ((authenticate now email password ⟨none, none⟩ login2).out = .ok tok2 →
        (authenticatedRequest now email password st login1 login2
            (.httpErr 401 msg) get2).gets = 2
        ∧ (authenticatedRequest now email password st login1 login2
            (.httpErr 401 msg) get2).state =
          (authenticate now email password ⟨none, none⟩ login2).state
        ∧ (authenticatedRequest now email password st login1 login2
            (.httpErr 401 msg) get2).out =
          (match get2 with
           | .ok v => .ok v
           | .httpErr _ m2 => .error ("Request failed after retry: " ++ m2)
           | .netErr m2 => .error ("Request failed after retry: " ++ m2)))
    ∧ ((authenticate now email password ⟨none, none⟩ login2).out = .error e2 →
        (authenticatedRequest now email password st login1 login2
            (.httpErr 401 msg) get2).gets = 1
        ∧ (authenticatedRequest now email password st login1 login2
            (.httpErr 401 msg) get2).state = ⟨none, none⟩
        ∧ (authenticatedRequest now email password st login1 login2
            (.httpErr 401 msg) get2).out =
          .error ("Request failed after retry: " ++ e2)) := by
  simp only [authenticatedRequest]
  rw [h1]
  cases ha2 : (authenticate now email password ⟨none, none⟩ login2).out with
  | error e =>
    refine ⟨rfl, ?_, ?_⟩
    · intro hok; simp at hok
    · intro herr
      injection herr with he
      subst he
      exact ⟨rfl, authenticate_error_state now email password ⟨none, none⟩ login2 e ha2, rfl⟩
  | ok t2 =>
    refine ⟨?_, ?_, ?_⟩
    · cases get2 <;> rfl
    · intro hok
      cases get2 <;> exact ⟨rfl, rfl, rfl⟩
    · intro herr; simp at herr

/-- C5 witness: a concrete 401 with a successful re-authentication and a
successful retried GET performs two logins and two GETs in total and
returns the retried payload. -/
theorem authenticatedRequest_401_retry_witness :
    (authenticatedRequest 0 (some "user") (some "pw") ⟨none, none⟩
        (LoginResult.ok "T" 3600) (LoginResult.ok "T2" 3600)
        (GetResult.httpErr 401 "unauthorized") (GetResult.ok (7 : ℕ))).logins = 2
    ∧ (authenticatedRequest 0 (some "user") (some "pw") ⟨none, none⟩
        (LoginResult.ok "T" 3600) (LoginResult.ok "T2" 3600)
        (GetResult.httpErr 401 "unauthorized") (GetResult.ok (7 : ℕ))).gets = 2
    ∧ (authenticatedRequest 0 (some "user") (some "pw") ⟨none, none⟩
        (LoginResult.ok "T" 3600) (LoginResult.ok "T2" 3600)
        (GetResult.httpErr 401 "unauthorized") (GetResult.ok (7 : ℕ))).out = .ok 7 := by
  have h := authenticatedRequest_401_retry 0 (some "user") (some "pw") ⟨none, none⟩
    (LoginResult.ok "T" 3600) (LoginResult.ok "T2" 3600) "unauthorized"
    (GetResult.ok (7 : ℕ)) "T" "T2" "" rfl
  have h2 := h.2.1 rfl
  refine ⟨?_, h2.1, ?_⟩
  · rw [h.1]; rfl
  · rw [h2.2.2]

/-- C7: the Yasir flag is true exactly when the marker string occurs in
the world-event payload under one of the scanned shapes, and the degraded
empty placeholder yields false, not an error. -/
theorem checkForYasir_marker_iff :
    (∀ w, checkForYasir w = specMarkerOccurs w)
    ∧ checkForYasir placeholderChanges = false := by
  refine ⟨?_, rfl⟩
  intro w
  rcases w with ⟨ch, wc⟩
  cases ch with
  | none => cases wc <;> rfl
  | some items =>
    cases hA : changesStringHit items <;> cases hB : changesObjHit items <;>
      cases wc <;>
        simp [checkForYasir, specMarkerOccurs, checkWorldChangesArm, hA, hB,
          worldChangesObjHit]

/-- C8 counterexample: with no theme-specific files, the default logo
present only in the third candidate location and the default background
present only in the fourth, asset loading raises the missing-assets error
even though both default assets exist in candidate locations. -/
theorem loadAssets_split_defaults_counterexample :
    loadAssets splitRead (assetBasePaths "/w") "dark" =
      .error "Asset loading failed: Failed to load required assets"
    ∧ splitRead "/app/src/assets/images/logo.png" = some "LOGO"
    ∧ splitRead "/app/dist/src/assets/images/image.png" = some "BG"
    ∧ ("/app/src/assets/images" ∈ assetBasePaths "/w"
        ∧ "/app/dist/src/assets/images" ∈ assetBasePaths "/w") := by
  refine ⟨rfl, rfl, rfl, by decide⟩

/-- Helper: if some base location yields a pair of truthy assets, the
`loadAssets` loop ends with two truthy variables, whatever it carries. -/
theorem loadAssetsLoop_good (read : String → Option String) (theme : String) :
    ∀ (paths : List String) (base l b : String)
      (acc : Option String × Option String),
      base ∈ paths → tryBasePath read theme base = some (l, b) → l ≠ "" → b ≠ "" →
      ∃ l2 b2, loadAssetsLoop read theme paths acc = (some l2, some b2)
        ∧ l2 ≠ "" ∧ b2 ≠ "" := by
  intro paths
  induction paths with
  | nil => intro base l b acc hmem; cases hmem
  | cons p rest ih =>
    intro base l b acc hmem htry hl hb
    rcases List.mem_cons.mp hmem with hp | hp
    · subst hp
      refine ⟨l, b, ?_, hl, hb⟩
      simp [loadAssetsLoop, htry, bne_iff_ne, hl, hb]
    · cases htp : tryBasePath read theme p with
      | none =>
        have hrec := ih base l b acc hp htry hl hb
        simpa [loadAssetsLoop, htp] using hrec
      | some pair =>
        obtain ⟨l0, b0⟩ := pair
        by_cases hc : (l0 != "" && b0 != "") = true
        · rw [Bool.and_eq_true, bne_iff_ne, bne_iff_ne] at hc
          refine ⟨l0, b0, ?_, hc.1, hc.2⟩
          simp [loadAssetsLoop, htp, bne_iff_ne, hc.1, hc.2]
        · have hrec := ih base l b (some l0, some b0) hp htry hl hb
          have hstep : loadAssetsLoop read theme (p :: rest) acc =
              loadAssetsLoop read theme rest (some l0, some b0) := by
            simp only [loadAssetsLoop, htp]
            rw [if_neg hc]
          rw [hstep]
          exact hrec

/-- C8 amended: an unknown lang falls back to the complete pt label set;
theme-asset resolution falls back per candidate location, so it succeeds
whenever a single candidate location yields both assets, each either
theme-specific or default. -/
theorem loadAssets_single_location_fallback :
    (∀ lang, translationsLookup lang = none → resolveTranslations lang = ptLabels)
    ∧ (∀ (read : String → Option String) (paths : List String) (theme base l b : String),
        base ∈ paths → tryBasePath read theme base = some (l, b) → l ≠ "" → b ≠ "" →
        isOkB (loadAssets read paths theme) = true) := by
  constructor
  · intro lang h
    simp [resolveTranslations, h]
  · intro read paths theme base l b hmem htry hl hb
    obtain ⟨l2, b2, hloop, hl2, hb2⟩ :=
      loadAssetsLoop_good read theme paths base l b (none, none) hmem htry hl hb
    simp [loadAssets, hloop, bne_iff_ne, hl2, hb2, isOkB]

/-- C8 witness: an unknown lang resolves to the pt labels, and a file
system with both default assets in one location loads with an unknown
theme. -/
theorem loadAssets_single_location_fallback_witness :
    resolveTranslations "de" = ptLabels
    ∧ isOkB (loadAssets goodRead ["A"] "dark") = true := by
  have h := loadAssets_single_location_fallback
  exact ⟨h.1 "de" rfl,
    h.2 goodRead ["A"] "dark" "A" "L" "B" (by decide) rfl (by decide) (by decide)⟩

/-- Helper: the raw-character scan distributes over appending. -/
theorem noRawSpecials_append (xs ys : List Char) :
    noRawSpecials (xs ++ ys) = (noRawSpecials xs && noRawSpecials ys) := by
  simp [noRawSpecials, List.all_append]

/-- Helper: the lt entity block scans through. -/
theorem amp_block_lt (l : List Char) : ampEntityAt ("&lt;".data ++ l) = ampEntityAt l := rfl

/-- Helper: the gt entity block scans through. -/
theorem amp_block_gt (l : List Char) : ampEntityAt ("&gt;".data ++ l) = ampEntityAt l := rfl

/-- Helper: the amp entity block scans through. -/
theorem amp_block_amp (l : List Char) :
    ampEntityAt ("&amp;".data ++ l) = ampEntityAt l := rfl

/-- Helper: the apos entity block scans through. -/
theorem amp_block_apos (l : List Char) :
    ampEntityAt ("&apos;".data ++ l) = ampEntityAt l := rfl

/-- Helper: the quot entity block scans through. -/
theorem amp_block_quot (l : List Char) :
    ampEntityAt ("&quot;".data ++ l) = ampEntityAt l := rfl

/-- Helper: one unfolding step of the escape recursion. -/
theorem escapeList_cons (c : Char) (cs : List Char) :
    escapeList (c :: cs) = escapeChar c ++ escapeList cs := rfl

/-- Helper: the escaped character list contains no raw special character
and every ampersand in it starts an entity. -/
theorem escapeList_noRaw_amp :
    ∀ cs : List Char, noRawSpecials (escapeList cs) = true
      ∧ ampEntityAt (escapeList cs) = true := by
  intro cs
  induction cs with
  | nil => exact ⟨rfl, rfl⟩
  | cons c cs ih =>
    obtain ⟨ih1, ih2⟩ := ih
    by_cases h1 : c = '<'
    · subst h1
      refine ⟨?_, ?_⟩
      · rw [escapeList_cons, show escapeChar '<' = "&lt;".data from rfl,
          noRawSpecials_append, ih1]
        decide
      · rw [escapeList_cons, show escapeChar '<' = "&lt;".data from rfl, amp_block_lt]
        exact ih2
    · by_cases h2 : c = '>'
      · subst h2
        refine ⟨?_, ?_⟩
        · rw [escapeList_cons, show escapeChar '>' = "&gt;".data from rfl,
            noRawSpecials_append, ih1]
          decide
        · rw [escapeList_cons, show escapeChar '>' = "&gt;".data from rfl, amp_block_gt]
          exact ih2
      · by_cases h3 : c = '&'
        · subst h3
          refine ⟨?_, ?_⟩
          · rw [escapeList_cons, show escapeChar '&' = "&amp;".data from rfl,
              noRawSpecials_append, ih1]
            decide
          · rw [escapeList_cons, show escapeChar '&' = "&amp;".data from rfl, amp_block_amp]
            exact ih2
        · by_cases h4 : c = squote
          · subst h4
            refine ⟨?_, ?_⟩
            · rw [escapeList_cons, show escapeChar squote = "&apos;".data from rfl,
                noRawSpecials_append, ih1]
              decide
            · rw [escapeList_cons, show escapeChar squote = "&apos;".data from rfl,
                amp_block_apos]
              exact ih2
          · by_cases h5 : c = '"'
            · subst h5
              refine ⟨?_, ?_⟩
              · rw [escapeList_cons, show escapeChar '"' = "&quot;".data from rfl,
                  noRawSpecials_append, ih1]
                decide
              · rw [escapeList_cons, show escapeChar '"' = "&quot;".data from rfl,
                  amp_block_quot]
                exact ih2
            · have hc : escapeList (c :: cs) = c :: escapeList cs := by
                rw [escapeList_cons]
                simp [escapeChar, h1, h2, h3, h4, h5]
              rw [hc]
              constructor
              · show (!(c == '<' || c == '>' || c == '"' || c == squote)
                    && noRawSpecials (escapeList cs)) = true
                simp [h1, h2, h4, h5, ih1]
              · show ampEntityAt (c :: escapeList cs) = true
                rw [ampEntityAt, if_neg h3]
                exact ih2

/-- C10: the escaped output contains no literal angle bracket or quote
character, every ampersand in it starts one of the five XML entities, and
a null, undefined or empty input yields the empty string. -/
theorem escapeXml_xmlSafe :
    (∀ s : Option String, noRawSpecials (escapeXml s).data = true
      ∧ ampEntityAt (escapeXml s).data = true)
    ∧ escapeXml none = "" ∧ escapeXml (some "") = "" := by
  refine ⟨?_, rfl, rfl⟩
  intro s
  cases s with
  | none => exact ⟨rfl, rfl⟩
  | some str =>
    by_cases h : str = ""
    · subst h; exact ⟨rfl, rfl⟩
    · have hx : escapeXml (some str) = ⟨escapeList str.data⟩ := by
        simp [escapeXml, h]
      rw [hx]
      exact escapeList_noRaw_amp str.data

end Firebot
